import Mathlib

/-!
Formal model of the reconnect/backoff policy of the tom-redis
repository. The policy is the retry_strategy callback passed to
createClient in src/index.ts; everything else in the repository is
pass-through delegation to the client library and carries no logic.
The callback receives an options record with the attempt count, the
cumulative elapsed retry time in milliseconds and the last error, and
either returns an Error object (stop retrying) or a number of
milliseconds to wait before the next attempt.
-/

namespace TomRedis

/-- Kind of the last connection error seen by the retry callback. In
the source, connectionRefused is an error object whose code field is
ECONNREFUSED, none is an absent options.error, and otherTransportError
is any other error object. -/
inductive ErrorKind where
  | connectionRefused
  | otherTransportError
  | none
deriving DecidableEq, Repr

/-- The options record the client library hands to retry_strategy:
attempt count, cumulative elapsed retry time in milliseconds, and the
kind of the last error. Field names follow the source. -/
structure RetryState where
  attempt : Nat
  total_retry_time : Nat
  error : ErrorKind
deriving DecidableEq, Repr

/-- The three terminal failure reasons of the policy, one per Error
object the source can return. -/
inductive FatalReason where
  | ConnectionRefused
  | RetryTimeExhausted
  | MaxAttemptsReached
deriving DecidableEq, Repr

/-- The exact message string of the Error object the source builds for
each fatal reason. -/
def FatalReason.message : FatalReason → String
  | .ConnectionRefused => "Redis server refused connection"
  | .RetryTimeExhausted => "Retry time exhausted"
  | .MaxAttemptsReached => "Max retry attempts reached"

/-- Outcome of one policy decision: returning an Error in the source
means stop retrying permanently (Fatal); returning a number means wait
that many milliseconds and attempt again. -/
inductive Outcome where
  | Fatal (reason : FatalReason)
  | WaitThenRetry (delay : Nat)
deriving DecidableEq, Repr

/-- Direct translation of the retry_strategy callback in src/index.ts:
the refusal check comes first, then the cumulative-time cap of
1000 * 60 * 60 milliseconds (one hour), then the 10-attempt cap, and
otherwise the linear backoff min(attempt * 100, 3000). -/
def retry_strategy (options : RetryState) : Outcome :=
  if options.error = ErrorKind.connectionRefused then
    Outcome.Fatal FatalReason.ConnectionRefused
  else if options.total_retry_time > 1000 * 60 * 60 then
    Outcome.Fatal FatalReason.RetryTimeExhausted
  else if options.attempt > 10 then
    Outcome.Fatal FatalReason.MaxAttemptsReached
  else
    Outcome.WaitThenRetry (min (options.attempt * 100) 3000)

/-- The decide function of the spec is the retry_strategy callback. -/
def decide (s : RetryState) : Outcome :=
  retry_strategy s

/-- Helper: a state whose error is connection-refused is decided
Fatal ConnectionRefused. -/
theorem decide_of_refused (s : RetryState)
    (hA : s.error = ErrorKind.connectionRefused) :
    decide s = Outcome.Fatal FatalReason.ConnectionRefused := by
  unfold decide retry_strategy
  rw [if_pos hA]

/-- Helper: without a refusal, elapsed time above the one-hour cap is
decided Fatal RetryTimeExhausted. -/
theorem decide_of_time (s : RetryState)
    (hk : s.error ≠ ErrorKind.connectionRefused)
    (he : 3600000 < s.total_retry_time) :
    decide s = Outcome.Fatal FatalReason.RetryTimeExhausted := by
  unfold decide retry_strategy
  split_ifs with hA
  · exact absurd hA hk
  · rfl

/-- Helper: without a refusal and with elapsed time at most the cap,
an attempt count above 10 is decided Fatal MaxAttemptsReached. -/
theorem decide_of_attempts (s : RetryState)
    (hk : s.error ≠ ErrorKind.connectionRefused)
    (he : s.total_retry_time ≤ 3600000)
    (ha : 10 < s.attempt) :
    decide s = Outcome.Fatal FatalReason.MaxAttemptsReached := by
  unfold decide retry_strategy
  split_ifs with hA hB
  · exact absurd hA hk
  · omega
  · rfl

/-- Helper: when none of the fatal checks fires, the decision is the
capped linear backoff. -/
theorem decide_of_transient (s : RetryState)
    (hk : s.error ≠ ErrorKind.connectionRefused)
    (he : s.total_retry_time ≤ 3600000)
    (ha : s.attempt ≤ 10) :
    decide s = Outcome.WaitThenRetry (min (s.attempt * 100) 3000) := by
  unfold decide retry_strategy
  split_ifs with hA hB hC
  · exact absurd hA hk
  · omega
  · omega
  · rfl

/-- Helper inversion: whenever the policy answers WaitThenRetry d, the
state passed all three fatal checks and d is attempt * 100 (the 3000
cap of the formula is slack because the attempt count is at most 10). -/
theorem decide_wait_inv (s : RetryState) (d : Nat)
    (h : decide s = Outcome.WaitThenRetry d) :
    s.error ≠ ErrorKind.connectionRefused ∧
      s.total_retry_time ≤ 3600000 ∧ s.attempt ≤ 10 ∧ d = s.attempt * 100 := by
  unfold decide retry_strategy at h
  split_ifs at h with hA hB hC
  simp only [Outcome.WaitThenRetry.injEq] at h
  exact ⟨hA, by omega, by omega, by omega⟩

/-- C1: for every RetryState with attempt count in [1,10], last error
kind not connection-refused and cumulative elapsed retry time at most
3,600,000 ms, decide returns WaitThenRetry with delay
min(attempt * 100, 3000) milliseconds (linear backoff capped at three
seconds). -/
theorem c1_backoff_in_window (s : RetryState)
    (_h1 : 1 ≤ s.attempt) (h2 : s.attempt ≤ 10)
    (hk : s.error ≠ ErrorKind.connectionRefused)
    (he : s.total_retry_time ≤ 3600000) :
    decide s = Outcome.WaitThenRetry (min (s.attempt * 100) 3000) :=
  decide_of_transient s hk he h2

/-- Witness for C1 at attempt 3, elapsed 0, a transient error. -/
theorem c1_backoff_in_window_witness :
    decide ⟨3, 0, ErrorKind.otherTransportError⟩ =
      Outcome.WaitThenRetry (min (3 * 100) 3000) :=
  c1_backoff_in_window ⟨3, 0, ErrorKind.otherTransportError⟩
    (by decide) (by decide) (by decide) (by decide)

/-- C2: for every RetryState whose last error kind is
connection-refused, decide returns the refusal Fatal outcome (whose
source message is the string given by FatalReason.message), for any
attempt count and any elapsed time: the refusal check has top
priority. -/
theorem c2_refused_top_priority (a elapsed : Nat) :
    decide ⟨a, elapsed, ErrorKind.connectionRefused⟩ =
      Outcome.Fatal FatalReason.ConnectionRefused :=
  decide_of_refused ⟨a, elapsed, ErrorKind.connectionRefused⟩ rfl

/-- C3: for every RetryState with a non-refused error and cumulative
elapsed retry time strictly above 3,600,000 ms, decide returns the
retry-time-exhausted Fatal outcome. -/
theorem c3_time_exhausted (s : RetryState)
    (hk : s.error ≠ ErrorKind.connectionRefused)
    (he : 3600000 < s.total_retry_time) :
    decide s = Outcome.Fatal FatalReason.RetryTimeExhausted :=
  decide_of_time s hk he

/-- Witness for C3 at attempt 1 and elapsed time 3,600,001 ms. -/
theorem c3_time_exhausted_witness :
    decide ⟨1, 3600001, ErrorKind.none⟩ =
      Outcome.Fatal FatalReason.RetryTimeExhausted :=
  c3_time_exhausted ⟨1, 3600001, ErrorKind.none⟩ (by decide) (by decide)

/-- C4 counterexample: at attempt count 11 with elapsed time
3,600,001 ms and a non-refused error, decide returns
Fatal RetryTimeExhausted and not Fatal MaxAttemptsReached, because the
elapsed-time cap is checked before the attempt cap; so the claimed
outcome does not hold regardless of elapsed time. -/
theorem c4_counterexample :
    decide ⟨11, 3600001, ErrorKind.otherTransportError⟩ =
        Outcome.Fatal FatalReason.RetryTimeExhausted ∧
      decide ⟨11, 3600001, ErrorKind.otherTransportError⟩ ≠
        Outcome.Fatal FatalReason.MaxAttemptsReached := by
  decide

/-- C4 amended: for every RetryState with attempt count exceeding 10,
last error kind not connection-refused, and elapsed time at most
3,600,000 ms, decide returns the max-attempts Fatal outcome. -/
theorem c4_max_attempts (s : RetryState)
    (hk : s.error ≠ ErrorKind.connectionRefused)
    (he : s.total_retry_time ≤ 3600000)
    (ha : 10 < s.attempt) :
    decide s = Outcome.Fatal FatalReason.MaxAttemptsReached :=
  decide_of_attempts s hk he ha

/-- Witness for the amended C4 at attempt 11 and elapsed 0. -/
theorem c4_max_attempts_witness :
    decide ⟨11, 0, ErrorKind.none⟩ =
      Outcome.Fatal FatalReason.MaxAttemptsReached :=
  c4_max_attempts ⟨11, 0, ErrorKind.none⟩ (by decide) (by decide) (by decide)

/-- C5: rules are evaluated in order with the first match winning: at
attempt 1 (no refusal, elapsed under the cap) decide gives a 100 ms
backoff, and at attempt 30 the attempt-count fatality fires before the
backoff formula, so decide gives Fatal MaxAttemptsReached rather than
the capped 3000 ms backoff. -/
theorem c5_rule_order (elapsed : Nat) (k : ErrorKind)
    (hk : k ≠ ErrorKind.connectionRefused) (he : elapsed ≤ 3600000) :
    decide ⟨1, elapsed, k⟩ = Outcome.WaitThenRetry 100 ∧
      decide ⟨30, elapsed, k⟩ = Outcome.Fatal FatalReason.MaxAttemptsReached := by
  constructor
  · have h := decide_of_transient ⟨1, elapsed, k⟩ hk he (by simp)
    simpa using h
  · exact decide_of_attempts ⟨30, elapsed, k⟩ hk he (by simp)

/-- Witness for C5 with a transient error and elapsed 0. -/
theorem c5_rule_order_witness :
    decide ⟨1, 0, ErrorKind.none⟩ = Outcome.WaitThenRetry 100 ∧
      decide ⟨30, 0, ErrorKind.none⟩ =
        Outcome.Fatal FatalReason.MaxAttemptsReached :=
  c5_rule_order 0 ErrorKind.none (by decide) (by decide)

/-- C6: decide is Fatal exactly when one of the three taxonomy
conditions holds (refusal, elapsed time over the one-hour cap, attempt
count over 10); and any other transport error with elapsed time at
most the cap and attempt count at most 10 is decided WaitThenRetry. -/
theorem c6_fatal_iff (s : RetryState) :
    ((∃ r, decide s = Outcome.Fatal r) ↔
        (s.error = ErrorKind.connectionRefused ∨
          3600000 < s.total_retry_time ∨ 10 < s.attempt)) ∧
      (s.error = ErrorKind.otherTransportError →
        s.total_retry_time ≤ 3600000 → s.attempt ≤ 10 →
        ∃ d, decide s = Outcome.WaitThenRetry d) := by
  constructor
  · constructor
    · intro ⟨r, hr⟩
      by_contra hcon
      push_neg at hcon
      obtain ⟨h1, h2, h3⟩ := hcon
      rw [decide_of_transient s h1 (by omega) (by omega)] at hr
      simp at hr
    · intro hcase
      by_cases hA : s.error = ErrorKind.connectionRefused
      · exact ⟨_, decide_of_refused s hA⟩
      by_cases hB : 3600000 < s.total_retry_time
      · exact ⟨_, decide_of_time s hA hB⟩
      rcases hcase with h | h | h
      · exact absurd h hA
      · exact absurd h hB
      · exact ⟨_, decide_of_attempts s hA (by omega) h⟩
  · intro h1 h2 h3
    exact ⟨_, decide_of_transient s (by simp [h1]) h2 h3⟩

/-- Witness for C6 at attempt 5, elapsed 100, a transient error. -/
theorem c6_fatal_iff_witness :
    ∃ d, decide ⟨5, 100, ErrorKind.otherTransportError⟩ =
      Outcome.WaitThenRetry d :=
  (c6_fatal_iff ⟨5, 100, ErrorKind.otherTransportError⟩).2 rfl
    (by decide) (by decide)

/-- C7: decide is deterministic: two calls on the same RetryState give
the same Outcome, which the embedding captures by decide being a pure
function of its argument. -/
theorem c7_deterministic (s : RetryState) : decide s = decide s := rfl

/-- C8: whenever decide answers WaitThenRetry d, the delay d equals
attempt * 100 and never exceeds 1000 ms, so the 3000 ms cap of the
backoff formula is never the selected value. -/
theorem c8_delay_formula (s : RetryState) (d : Nat)
    (h : decide s = Outcome.WaitThenRetry d) :
    d = s.attempt * 100 ∧ d ≤ 1000 := by
  obtain ⟨-, -, ha, hd⟩ := decide_wait_inv s d h
  exact ⟨hd, by omega⟩

/-- Witness for C8 at attempt 3, where the delay is 300 ms. -/
theorem c8_delay_formula_witness :
    300 = (⟨3, 0, ErrorKind.none⟩ : RetryState).attempt * 100 ∧ 300 ≤ 1000 :=
  c8_delay_formula ⟨3, 0, ErrorKind.none⟩ 300 (by decide)

/-- C9: the backoff delay is monotone in the attempt count: when decide
answers WaitThenRetry for two attempt counts a1 ≤ a2 with the same
error kind and elapsed time, the first delay is at most the second. -/
theorem c9_backoff_monotone (a1 a2 elapsed : Nat) (k : ErrorKind)
    (d1 d2 : Nat) (hle : a1 ≤ a2)
    (h1 : decide ⟨a1, elapsed, k⟩ = Outcome.WaitThenRetry d1)
    (h2 : decide ⟨a2, elapsed, k⟩ = Outcome.WaitThenRetry d2) :
    d1 ≤ d2 := by
  obtain ⟨-, -, -, hd1⟩ := decide_wait_inv _ _ h1
  obtain ⟨-, -, -, hd2⟩ := decide_wait_inv _ _ h2
  have e1 : d1 = a1 * 100 := hd1
  have e2 : d2 = a2 * 100 := hd2
  omega

/-- Witness for C9 at attempts 2 and 5 with delays 200 and 500. -/
theorem c9_backoff_monotone_witness : (200 : Nat) ≤ 500 :=
  c9_backoff_monotone 2 5 0 ErrorKind.none 200 500
    (by decide) (by decide) (by decide)

/-- C10: at attempt count 0 with a non-refused error and elapsed time
at most the cap, decide returns WaitThenRetry 0, an immediate retry
with no backoff. -/
theorem c10_zero_attempt (elapsed : Nat) (k : ErrorKind)
    (hk : k ≠ ErrorKind.connectionRefused) (he : elapsed ≤ 3600000) :
    decide ⟨0, elapsed, k⟩ = Outcome.WaitThenRetry 0 := by
  have h := decide_of_transient ⟨0, elapsed, k⟩ hk he (by simp)
  simpa using h

/-- Witness for C10 with no error yet and elapsed 0. -/
theorem c10_zero_attempt_witness :
    decide ⟨0, 0, ErrorKind.none⟩ = Outcome.WaitThenRetry 0 :=
  c10_zero_attempt 0 ErrorKind.none (by decide) (by decide)

end TomRedis
